import Mathlib

/-!
# Verification of the sqlgen Redshift SQL generator

Shallow embedding of `src/sqlcodegen.py` (class `RedshiftSQLGenerator`) and,
where a claim needs it, of the variant logic in `src/sqlgencli_v1.py`.
Pandas cell values that may be missing (NaN) are modelled as `Option`;
`pd.notna` is `Option.isSome`.  Fallible Python code (uncaught exceptions)
is modelled with `Except String`.  Python `str.strip` is modelled by
`String.trim`, splitting on semicolons by `String.splitOn ";"`, and the
Python join of a separator over a list by `String.intercalate`.
-/

/-- A Python scalar as it can appear in the `constant_value` mapping cell.
`pyStr` mirrors Python `str()` on these values. -/
inductive PyVal where
  | str (s : String)
  | int (n : Int)
  | bool (b : Bool)
deriving Repr, DecidableEq

def PyVal.pyStr : PyVal → String
  | .str s => s
  | .int n => toString n
  | .bool b => if b then "True" else "False"

/-- One row of the `Tables` sheet (`tables_df`). -/
structure TableDefinition where
  schema_name : String
  table_name : String
  description : Option String
  primary_key : Option String
  dist_style : Option String
  dist_key : Option String
  sort_keys : Option String
  sort_type : Option String
deriving Repr, DecidableEq

/-- One row of the `Columns` sheet (`columns_df`). -/
structure ColumnDefinition where
  schema_name : String
  table_name : String
  column_name : String
  column_order : Int
  data_type : String
  not_null : Option Bool
  default_value : Option String
  encode : Option String
deriving Repr, DecidableEq

/-- One row of the `Mappings` sheet (`mappings_df`). -/
structure ColumnMapping where
  target_schema : String
  target_table : String
  target_column : String
  target_column_order : Int
  source_schema : String
  source_table : String
  source_column : Option String
  transformation : Option String
  constant_value : Option PyVal
  is_business_key : Bool
  scd_type : String
deriving Repr, DecidableEq

/-- Constant rendering (sqlcodegen.py lines 208-210, 267-269, 353-355): a str
value is wrapped in single quotes, any other value is rendered via str(). -/
def renderConst : PyVal → String
  | .str s => "\x27" ++ s ++ "\x27"
  | .int n => toString n
  | .bool b => if b then "True" else "False"

/-- Source-expression resolution in `_generate_type1_load` (sqlcodegen.py
lines 203-212); `_generate_type2_load` lines 263-271 are textually identical. -/
def srcExprAliased (row : ColumnMapping) : String :=
  match row.transformation with
  | some t => t
  | none =>
    match row.source_column with
    | some c => "src." ++ c
    | none =>
      match row.constant_value with
      | some v => renderConst v
      | none => "NULL"

/-- Source-expression resolution in `_generate_insert_load` (sqlcodegen.py
lines 349-357): the `source_column` branch uses the bare column name. -/
def srcExprInsert (row : ColumnMapping) : String :=
  match row.transformation with
  | some t => t
  | none =>
    match row.source_column with
    | some c => c
    | none =>
      match row.constant_value with
      | some v => renderConst v
      | none => "NULL"

/-- Modelled from the amended claim C1: four-way precedence, first present
field wins; `aliased` says whether the `source_column` branch prepends the
`src.` alias (Type1/Type2) or not (Insert). -/
def resolveSpec (aliased : Bool) (row : ColumnMapping) : String :=
  match row.transformation with
  | some t => t
  | none =>
    match row.source_column with
    | some c => if aliased then "src." ++ c else c
    | none =>
      match row.constant_value with
      | some v =>
        match v with
        | .str s => "\x27" ++ s ++ "\x27"
        | .int n => toString n
        | .bool b => if b then "True" else "False"
      | none => "NULL"

/-! ## DML synthesizer (`generate_dml` and the three strategies, sqlcodegen.py) -/

/-- First-occurrence deduplication, the order `pandas.Series.unique` uses. -/
def uniqueFirstAux [DecidableEq α] (seen : List α) : List α → List α
  | [] => []
  | x :: xs =>
    if x ∈ seen then uniqueFirstAux seen xs
    else x :: uniqueFirstAux (x :: seen) xs

def uniqueFirst [DecidableEq α] (l : List α) : List α := uniqueFirstAux [] l

/-- Sorting a mapping group by target_column_order (sort_values). -/
def sortByTargetOrder (ms : List ColumnMapping) : List ColumnMapping :=
  List.insertionSort (fun a b => a.target_column_order ≤ b.target_column_order) ms

/-- source_schema.source_table read from the first row of the group; groups
are nonempty by construction (iloc 0 would raise on an empty frame). -/
def sourceTableOf (ms : List ColumnMapping) : String :=
  match ms with
  | [] => ""
  | m :: _ => m.source_schema ++ "." ++ m.source_table

def targetColsOf (ms : List ColumnMapping) : List String :=
  ms.map (·.target_column)

/-- The source_exprs list of the Type1/Type2 loops: resolved expression,
then AS, then the target column. -/
def sourceExprsAliased (ms : List ColumnMapping) : List String :=
  ms.map (fun r => srcExprAliased r ++ " AS " ++ r.target_column)

/-- The `source_exprs` list of the Insert loop (bare expressions, no alias). -/
def sourceExprsInsert (ms : List ColumnMapping) : List String :=
  ms.map srcExprInsert

/-- Columns with `is_business_key` present and truthy, in mapping order. -/
def businessKeysOf (ms : List ColumnMapping) : List String :=
  (ms.filter (·.is_business_key)).map (·.target_column)

/-- The non-business-key columns, in mapping order (`update_sets` sources). -/
def updateSetsOf (ms : List ColumnMapping) : List String :=
  (ms.filter (fun m => !m.is_business_key)).map
    (fun m => "    tgt." ++ m.target_column ++ " = src." ++ m.target_column)

/-- `compare_cols` of `_generate_type2_load`: non-key target columns in order. -/
def compareColsOf (ms : List ColumnMapping) : List String :=
  (ms.filter (fun m => !m.is_business_key)).map (·.target_column)

/-- AND-join of the per-key equality tgt.key = src.key over the business keys. -/
def businessKeyJoin (ms : List ColumnMapping) : String :=
  String.intercalate " AND "
    ((businessKeysOf ms).map (fun k => "tgt." ++ k ++ " = src." ++ k))

/-- `change_check` of `_generate_type2_load` (sqlcodegen.py lines 281-284):
OR-join of NVL tests over `compare_cols[:5]`. -/
def changeCheck (ms : List ColumnMapping) : String :=
  String.intercalate " OR "
    (((compareColsOf ms).take 5).map
      (fun c => "NVL(tgt." ++ c ++ ", \x27NULL\x27) <> NVL(src." ++ c ++ ", \x27NULL\x27)"))

/-- `_generate_type1_load`: the MERGE statement text. -/
def type1Load (ms : List ColumnMapping) (target_table : String) : String :=
  "\n-- SCD Type 1: Update existing, Insert new\nBEGIN TRANSACTION;\n\nMERGE INTO "
    ++ target_table ++ " AS tgt\nUSING (\nSELECT\n"
    ++ String.intercalate ",\n        " (sourceExprsAliased ms)
    ++ "\nFROM " ++ sourceTableOf ms
    ++ "\nWHERE 1=1  -- Add incremental filter here\n) AS src\nON "
    ++ businessKeyJoin ms
    ++ "\nWHEN MATCHED THEN\nUPDATE SET\n"
    ++ String.intercalate ",\n" (updateSetsOf ms)
    ++ ",\ntgt.updated_date = GETDATE()\nWHEN NOT MATCHED THEN\nINSERT ("
    ++ String.intercalate ", " (targetColsOf ms)
    ++ ", created_date, updated_date)\nVALUES ("
    ++ String.intercalate ", " ((targetColsOf ms).map (fun c => "src." ++ c))
    ++ ", GETDATE(), GETDATE());\n\nCOMMIT;\n"

/-- `_generate_type2_load`: expire-then-insert, one transaction. -/
def type2Load (ms : List ColumnMapping) (target_table : String) : String :=
  "\n-- SCD Type 2: Track history with effective dates\nBEGIN TRANSACTION;\n\n-- Expire changed records\nUPDATE "
    ++ target_table
    ++ " AS tgt\nSET\ntgt.effective_end_date = DATEADD(day, -1, GETDATE()),\ntgt.is_current = FALSE,\ntgt.updated_date = GETDATE()\nFROM (\nSELECT "
    ++ String.intercalate ", " ((businessKeysOf ms).map (fun k => "src." ++ k))
    ++ "\nFROM " ++ sourceTableOf ms
    ++ " AS src\n) AS src\nWHERE tgt.is_current = TRUE\nAND "
    ++ businessKeyJoin ms
    ++ "\nAND (" ++ changeCheck ms
    ++ ");\n\n-- Insert new versions\nINSERT INTO " ++ target_table ++ " (\n"
    ++ String.intercalate ", " (targetColsOf ms)
    ++ ",\neffective_start_date,\neffective_end_date,\nis_current,\ncreated_date\n)\nSELECT\n"
    ++ String.intercalate ",\n    " (sourceExprsAliased ms)
    ++ ",\nGETDATE() AS effective_start_date,\n\x279999-12-31\x27::DATE AS effective_end_date,\nTRUE AS is_current,\nGETDATE() AS created_date\nFROM "
    ++ sourceTableOf ms
    ++ " AS src\nWHERE NOT EXISTS (\nSELECT 1 FROM " ++ target_table
    ++ " AS tgt\nWHERE tgt.is_current = TRUE\nAND " ++ businessKeyJoin ms
    ++ "\n)\nOR EXISTS (\nSELECT 1 FROM " ++ target_table
    ++ " AS tgt\nWHERE tgt.is_current = TRUE\nAND " ++ businessKeyJoin ms
    ++ "\nAND (" ++ changeCheck ms ++ ")\n);\n\nCOMMIT;\n"

/-- `_generate_insert_load`: plain INSERT..SELECT with placeholder predicate. -/
def insertLoad (ms : List ColumnMapping) (target_table : String) : String :=
  "\n-- Insert load\nINSERT INTO " ++ target_table ++ " (\n"
    ++ String.intercalate ", " (targetColsOf ms)
    ++ "\n)\nSELECT\n"
    ++ String.intercalate ",\n    " (sourceExprsInsert ms)
    ++ "\nFROM " ++ sourceTableOf ms
    ++ "\nWHERE 1=1;  -- Add filter conditions here\n"

/-- The scd_type dispatch of `generate_dml` (sqlcodegen.py lines 172-177):
TYPE1 and TYPE2 by tag match, everything else to the Insert strategy. -/
def scriptFor (scd_type : String) (grp : List ColumnMapping) (full_target : String) : String :=
  if scd_type == "TYPE1" then type1Load grp full_target
  else if scd_type == "TYPE2" then type2Load grp full_target
  else insertLoad grp full_target

/-- Modelled from the spec: the closed strategy variant the string dispatch routes to. -/
inductive Strategy where
  | type1
  | type2
  | insert
deriving Repr, DecidableEq

def strategyFor (scd_type : String) : Strategy :=
  if scd_type == "TYPE1" then .type1
  else if scd_type == "TYPE2" then .type2
  else .insert

/-- unique() over the target_table column (sqlcodegen.py line 155):
grouping is by `target_table` alone. -/
def targetsOf (ms : List ColumnMapping) : List String :=
  uniqueFirst (ms.map (·.target_table))

/-- `target_schema` of a block: `.iloc[0]` of the unsorted rows filtered by
`target_table` only (sqlcodegen.py lines 156-158). -/
def schemaOfTarget (ms : List ColumnMapping) (t : String) : String :=
  match ms.filter (fun m => m.target_table == t) with
  | [] => ""
  | m :: _ => m.target_schema

/-- The rows of a block: filtered by `target_table` only, then sorted by
`target_column_order` (sqlcodegen.py lines 162-164). -/
def groupFor (ms : List ColumnMapping) (t : String) : List ColumnMapping :=
  sortByTargetOrder (ms.filter (fun m => m.target_table == t))

/-- The governing scd_type: the first row of the sorted group when the sheet
has an scd_type column at all (`hasScdCol`), else the literal TYPE1
(sqlcodegen.py line 167). -/
def scdOfGroup (hasScdCol : Bool) (grp : List ColumnMapping) : String :=
  if hasScdCol then
    match grp with
    | [] => ""
    | m :: _ => m.scd_type
  else "TYPE1"

def dashes70 : String := String.mk (List.replicate 70 '-')

def equals70 : String := String.mk (List.replicate 70 '=')

/-- The three strings `generate_dml` appends per target table. -/
def dmlBlock (hasScdCol : Bool) (ms : List ColumnMapping) (t : String) : List String :=
  let full_target := schemaOfTarget ms t ++ "." ++ t
  let grp := groupFor ms t
  let scd := scdOfGroup hasScdCol grp
  ["\n-- Load: " ++ full_target ++ " (SCD " ++ scd ++ ")",
   "-- " ++ dashes70,
   scriptFor scd grp full_target]

def dmlHeader (now : String) : List String :=
  ["-- AWS Redshift DML Scripts (Incremental Load)",
   "-- Generated on: " ++ now,
   "-- " ++ equals70 ++ "\n"]

/-- `generate_dml` (sqlcodegen.py lines 143-187): the emitted script lines and
the error list, which the DML path never touches once mappings are loaded. -/
def generate_dml (errors : List String) (hasScdCol : Bool) (now : String)
    (ms : List ColumnMapping) : List String × List String :=
  (dmlHeader now ++ (targetsOf ms).flatMap (dmlBlock hasScdCol ms), errors)

/-- Modelled from the claim C2 words: the distinct (target_schema, target_table)
pairs appearing in the mappings. -/
def uniquePairs (ms : List ColumnMapping) : List (String × String) :=
  uniqueFirst (ms.map (fun m => (m.target_schema, m.target_table)))

/-- A mapping row with only `source_column` set, as the Insert strategy sees it
(sample sheet row `customer_id` ← `stg_customers.cust_id`). -/
def c1Row : ColumnMapping :=
  { target_schema := "dwh"
    target_table := "dim_customer"
    target_column := "customer_id"
    target_column_order := 2
    source_schema := "staging"
    source_table := "stg_customers"
    source_column := some "cust_id"
    transformation := none
    constant_value := none
    is_business_key := true
    scd_type := "INSERT" }

/-- Modelled from the amended claim C6 words: one null-safe inequality test. -/
def nvlTest (c : String) : String :=
  "NVL(tgt." ++ c ++ ", \x27NULL\x27) <> NVL(src." ++ c ++ ", \x27NULL\x27)"

/-- Two mappings for the same `target_table` name under different schemas. -/
def c2a : ColumnMapping :=
  { target_schema := "mart_a"
    target_table := "dim_shared"
    target_column := "id"
    target_column_order := 1
    source_schema := "staging"
    source_table := "src_a"
    source_column := some "id"
    transformation := none
    constant_value := none
    is_business_key := true
    scd_type := "TYPE1" }

def c2b : ColumnMapping :=
  { target_schema := "mart_b"
    target_table := "dim_shared"
    target_column := "code"
    target_column_order := 2
    source_schema := "staging"
    source_table := "src_b"
    source_column := some "code"
    transformation := none
    constant_value := none
    is_business_key := false
    scd_type := "TYPE1" }

/-- A single non-business-key Type2 mapping. -/
def c6Row : ColumnMapping :=
  { target_schema := "dwh"
    target_table := "dim_customer"
    target_column := "customer_name"
    target_column_order := 3
    source_schema := "staging"
    source_table := "stg_customers"
    source_column := some "name"
    transformation := none
    constant_value := none
    is_business_key := false
    scd_type := "TYPE2" }

/-- A one-row Type1 mapping group with no business key at all. -/
def c8Row : ColumnMapping :=
  { target_schema := "dwh"
    target_table := "dim_note"
    target_column := "note_text"
    target_column_order := 1
    source_schema := "staging"
    source_table := "stg_notes"
    source_column := some "note_text"
    transformation := none
    constant_value := none
    is_business_key := false
    scd_type := "TYPE1" }

/-- C1 counterexample: the Insert strategy resolves a `source_column`-only
mapping to the bare column name, not to `<source-alias>.<source_column>` as
the claim states for all three strategies. -/
theorem c1_insert_expr_lacks_alias :
    srcExprInsert c1Row = "cust_id" ∧ srcExprInsert c1Row ≠ "src.cust_id" := by
  refine ⟨rfl, ?_⟩
  decide

/-- C1 (amended): in every strategy the resolved expression follows the
four-way precedence transformation → source_column → constant_value → NULL,
first present field winning, with constants quoted exactly when they are
strings; Type1/Type2 render `source_column` as `src.<source_column>` while
Insert renders it bare. -/
theorem c1_sourceExpr_precedence (row : ColumnMapping) :
    srcExprAliased row = resolveSpec true row ∧
    srcExprInsert row = resolveSpec false row := by
  unfold srcExprAliased srcExprInsert resolveSpec renderConst
  cases row.transformation <;>
    cases row.source_column <;>
      cases row.constant_value <;> simp


/-! ## DDL synthesizer (`generate_ddl`, sqlcodegen.py lines 49-141) -/

def fullTableName (t : TableDefinition) : String :=
  t.schema_name ++ "." ++ t.table_name

def colMatches (t : TableDefinition) (c : ColumnDefinition) : Bool :=
  c.schema_name == t.schema_name && c.table_name == t.table_name

/-- The columns of the table, filtered by (schema_name, table_name) and sorted by
`column_order` (sqlcodegen.py lines 70-73). -/
def tableColumns (cols : List ColumnDefinition) (t : TableDefinition) :
    List ColumnDefinition :=
  List.insertionSort (fun a b => a.column_order ≤ b.column_order)
    (cols.filter (colMatches t))

/-- One `col_def` line (sqlcodegen.py lines 85-93). -/
def columnDefLine (c : ColumnDefinition) : String :=
  "    " ++ c.column_name ++ " " ++ c.data_type
    ++ (if c.not_null == some true then " NOT NULL" else "")
    ++ (match c.default_value with
        | some d => " DEFAULT " ++ d
        | none => "")
    ++ (match c.encode with
        | some e => " ENCODE " ++ e
        | none => "")

/-- Distribution properties (sqlcodegen.py lines 110-114). -/
def distProps (t : TableDefinition) : List String :=
  match t.dist_style with
  | none => []
  | some ds =>
    if ds.toUpper == "KEY" && t.dist_key.isSome then
      ["DISTKEY(" ++ t.dist_key.getD "" ++ ")"]
    else
      ["DISTSTYLE " ++ ds.toUpper]

/-- The sort_type lookup with COMPOUND default, upper-cased (sqlcodegen.py
line 118).
`pandas.Series.get` falls back to the default only when the `sort_type`
column is missing from the sheet (`hasSortTypeCol = false`); a present but
null cell returns NaN, a float, and `.upper()` raises AttributeError. -/
def sortTypeValue (hasSortTypeCol : Bool) (t : TableDefinition) :
    Except String String :=
  if hasSortTypeCol then
    match t.sort_type with
    | some s => .ok s.toUpper
    | none => .error "AttributeError: \x27float\x27 object has no attribute \x27upper\x27"
  else .ok "COMPOUND"

/-- `table_props` (sqlcodegen.py lines 107-119). -/
def tableProps (hasSortTypeCol : Bool) (t : TableDefinition) :
    Except String (List String) :=
  match t.sort_keys with
  | none => .ok (distProps t)
  | some sk =>
    match sortTypeValue hasSortTypeCol t with
    | .error e => .error e
    | .ok st => .ok (distProps t ++ [st ++ " SORTKEY(" ++ sk ++ ")"])

/-- `"\n".join(create_stmt)` (sqlcodegen.py lines 80-126). -/
def createStatement (hasSortTypeCol : Bool) (cols : List ColumnDefinition)
    (t : TableDefinition) : Except String String :=
  match tableProps hasSortTypeCol t with
  | .error e => .error e
  | .ok props =>
    .ok (String.intercalate "\n"
      (["CREATE TABLE " ++ fullTableName t ++ " ("]
        ++ [String.intercalate ",\n" ((tableColumns cols t).map columnDefLine)]
        ++ (match t.primary_key with
            | some pk => [",\n    PRIMARY KEY (" ++ pk ++ ")"]
            | none => [])
        ++ [")"]
        ++ (if props.isEmpty then [] else ["\n" ++ String.intercalate "\n" props])
        ++ [";"]))

/-- One iteration of the table loop: the lines appended to `ddl_scripts` and
the error appended to `self.errors`, if any.  The DROP statement is appended
before the zero-column check, so a skipped table still contributes its
comment and DROP lines. -/
def ddlTableBlock (hasSortTypeCol : Bool) (cols : List ColumnDefinition)
    (t : TableDefinition) : Except String (List String × Option String) :=
  let header := ["\n-- Table: " ++ fullTableName t,
                 "DROP TABLE IF EXISTS " ++ fullTableName t ++ " CASCADE;"]
  if (tableColumns cols t).isEmpty then
    .ok (header, some ("No columns defined for " ++ fullTableName t))
  else
    match createStatement hasSortTypeCol cols t with
    | .error e => .error e
    | .ok create =>
      .ok (header ++ [create]
            ++ (match t.description with
                | some d =>
                  ["COMMENT ON TABLE " ++ fullTableName t ++ " IS \x27"
                    ++ d.replace "\x27" "\x27\x27" ++ "\x27;"]
                | none => []),
           none)

def ddlHeader (now : String) : List String :=
  ["-- AWS Redshift DDL Scripts", "-- Generated on: " ++ now,
   "-- " ++ equals70 ++ "\n"]

/-- The table loop of `generate_ddl`; an uncaught exception aborts the whole
run (nothing is written), modelled by the `.error` short-circuit. -/
def generate_ddlGo (hasSortTypeCol : Bool) (cols : List ColumnDefinition) :
    List TableDefinition → List String → List String →
      Except String (List String × List String)
  | [], acc, errors => .ok (acc, errors)
  | t :: ts, acc, errors =>
    match ddlTableBlock hasSortTypeCol cols t with
    | .error e => .error e
    | .ok (lines, none) => generate_ddlGo hasSortTypeCol cols ts (acc ++ lines) errors
    | .ok (lines, some m) =>
      generate_ddlGo hasSortTypeCol cols ts (acc ++ lines) (errors ++ [m])

def generate_ddl (hasSortTypeCol : Bool) (now : String)
    (tables : List TableDefinition) (cols : List ColumnDefinition)
    (errors : List String) : Except String (List String × List String) :=
  generate_ddlGo hasSortTypeCol cols tables (ddlHeader now) errors

/-! ## SQL validator (`validate_sql`, sqlcodegen.py lines 376-413) -/

/-- The fragments produced by splitting the text on semicolons, each stripped. -/
def candidateFragments (text : String) : List String :=
  (text.splitOn ";").map (fun s => s.trim)

/-- The statements list (sqlcodegen.py line 385): stripped fragments that are
nonempty and do not start with the line-comment marker. -/
def splitStatements (text : String) : List String :=
  (candidateFragments text).filter (fun s => !(s == "") && !(s.startsWith "--"))

/-- The loop guard `if not stmt or len(stmt) < 10: continue`. -/
def skipStmt (s : String) : Bool :=
  s == "" || decide (s.length < 10)

def parseOk (parse : String → Except String Unit) (s : String) : Bool :=
  match parse s with
  | .ok _ => true
  | .error _ => false

/-- Result of one validation run; `parsed` records, in order, the statements
that were handed to the dialect parser. -/
structure VOutcome where
  valid : Nat
  invalid : Nat
  errors : List String
  parsed : List String
deriving Repr, DecidableEq

/-- The `for i, stmt in enumerate(statements, 1)` loop: `i` counts every
candidate, including the ones the guard skips. -/
def validateGo (parse : String → Except String Unit) :
    Nat → List String → VOutcome
  | _, [] => { valid := 0, invalid := 0, errors := [], parsed := [] }
  | i, stmt :: rest =>
    let r := validateGo parse (i + 1) rest
    if skipStmt stmt then r
    else
      match parse stmt with
      | .ok _ => { r with valid := r.valid + 1, parsed := stmt :: r.parsed }
      | .error e =>
        { r with
            invalid := r.invalid + 1,
            errors := ("Statement " ++ toString i ++ " validation error: "
              ++ e.take 100) :: r.errors,
            parsed := stmt :: r.parsed }

/-- `validate_sql`: tallies plus the returned flag `error_count == 0`.  The
dialect parser (`sqlglot.parse_one`) is external and passed as an oracle; the
embedding is a pure function of (parse, text), so the input text is never
mutated. -/
def validate_sql (parse : String → Except String Unit) (text : String) :
    VOutcome × Bool :=
  let o := validateGo parse 1 (splitStatements text)
  (o, o.invalid == 0)

/-- Modelled from the claim C5 words: the expected diagnostic for one indexed
candidate — statement index plus the first 100 characters of the message. -/
def diagOf (parse : String → Except String Unit) (p : Nat × String) :
    Option String :=
  if skipStmt p.2 then none
  else
    match parse p.2 with
    | .ok _ => none
    | .error e =>
      some ("Statement " ++ toString p.1 ++ " validation error: " ++ e.take 100)

def specDiagnostics (parse : String → Except String Unit) (text : String) :
    List String :=
  ((splitStatements text).enumFrom 1).filterMap (diagOf parse)

/-- The candidates that survive the loop guard and reach the parser. -/
def parsedStatements (text : String) : List String :=
  (splitStatements text).filter (fun s => !skipStmt s)

/-! ## Concrete inputs for the DDL claims -/

/-- A table with a column, `sort_keys` set, and a null `sort_type` cell. -/
def c3Table : TableDefinition :=
  { schema_name := "dwh"
    table_name := "fact_sales"
    description := none
    primary_key := none
    dist_style := none
    dist_key := none
    sort_keys := some "sale_date"
    sort_type := none }

def c3Col : ColumnDefinition :=
  { schema_name := "dwh"
    table_name := "fact_sales"
    column_name := "sale_date"
    column_order := 1
    data_type := "DATE"
    not_null := some true
    default_value := none
    encode := none }

/-- A table with no associated column rows. -/
def c3EmptyTable : TableDefinition :=
  { schema_name := "dwh"
    table_name := "dim_empty"
    description := none
    primary_key := none
    dist_style := none
    dist_key := none
    sort_keys := none
    sort_type := none }

/-- Null `sort_type` with `sort_keys` set, as in the C9 failing input. -/
def c9Table : TableDefinition :=
  { schema_name := "dwh"
    table_name := "dim_product"
    description := none
    primary_key := none
    dist_style := some "ALL"
    dist_key := none
    sort_keys := some "product_id"
    sort_type := none }

def c9Col : ColumnDefinition :=
  { schema_name := "dwh"
    table_name := "dim_product"
    column_name := "product_id"
    column_order := 1
    data_type := "VARCHAR(50)"
    not_null := some true
    default_value := none
    encode := none }

/-- Another zero-column table, for the C10 witness run. -/
def c10Table : TableDefinition :=
  { schema_name := "dwh"
    table_name := "dim_unused"
    description := none
    primary_key := none
    dist_style := none
    dist_key := none
    sort_keys := none
    sort_type := none }

/-! ## Helper lemmas -/

theorem mem_uniqueFirstAux [DecidableEq α] (a : α) (l : List α) (seen : List α) :
    a ∈ uniqueFirstAux seen l ↔ a ∈ l ∧ a ∉ seen := by
  induction l generalizing seen with
  | nil => simp [uniqueFirstAux]
  | cons x xs ih =>
    by_cases hx : x ∈ seen
    · rw [uniqueFirstAux, if_pos hx, ih]
      simp only [List.mem_cons]
      constructor
      · rintro ⟨h1, h2⟩
        exact ⟨Or.inr h1, h2⟩
      · rintro ⟨rfl | h1, h2⟩
        · exact absurd hx h2
        · exact ⟨h1, h2⟩
    · rw [uniqueFirstAux, if_neg hx]
      simp only [List.mem_cons, ih, not_or]
      constructor
      · rintro (rfl | ⟨h1, h2, h3⟩)
        · exact ⟨Or.inl rfl, hx⟩
        · exact ⟨Or.inr h1, h3⟩
      · rintro ⟨rfl | h1, h2⟩
        · exact Or.inl rfl
        · by_cases hax : a = x
          · exact Or.inl hax
          · exact Or.inr ⟨h1, hax, h2⟩

theorem mem_uniqueFirst [DecidableEq α] (a : α) (l : List α) :
    a ∈ uniqueFirst l ↔ a ∈ l := by
  simp [uniqueFirst, mem_uniqueFirstAux]

theorem flatMap_dmlBlock_length (hasScdCol : Bool) (ms : List ColumnMapping)
    (l : List String) :
    (l.flatMap (dmlBlock hasScdCol ms)).length = 3 * l.length := by
  induction l with
  | nil => rfl
  | cons x xs ih =>
    simp only [List.flatMap_cons, List.length_append, ih, List.length_cons]
    have hx : (dmlBlock hasScdCol ms x).length = 3 := rfl
    omega

theorem generate_dml_length (errors : List String) (hasScdCol : Bool) (now : String)
    (ms : List ColumnMapping) :
    ((generate_dml errors hasScdCol now ms).1).length = 3 + 3 * (targetsOf ms).length := by
  show (dmlHeader now ++ (targetsOf ms).flatMap (dmlBlock hasScdCol ms)).length = _
  rw [List.length_append, flatMap_dmlBlock_length]
  rfl

/-! ## Claim theorems: DML synthesizer -/

/-- C2 counterexample: two mappings for (mart_a, dim_shared) and
(mart_b, dim_shared) are two distinct (target_schema, target_table) pairs,
yet `generate_dml` emits a single load block (6 = 3 header + 3 block lines)
whose group contains the rows of both schemas. -/
theorem c2_groups_merge_across_schemas :
    (uniquePairs [c2a, c2b]).length = 2 ∧
    (targetsOf [c2a, c2b]).length = 1 ∧
    ((generate_dml [] true "ts" [c2a, c2b]).1).length = 6 ∧
    groupFor [c2a, c2b] "dim_shared" = [c2a, c2b] := by
  refine ⟨rfl, rfl, ?_, ?_⟩ <;> decide

/-- C2 (amended): `generate_dml` (sqlcodegen variant) emits exactly one load
block per distinct `target_table` value (not per (schema, table) pair); each
block is built from the rows sharing that `target_table`, sorted by
`target_column_order`, and every appearing `target_table` gets a block. -/
theorem c2_generate_dml_grouping (errors : List String) (hasScdCol : Bool)
    (now : String) (ms : List ColumnMapping) :
    ((generate_dml errors hasScdCol now ms).1).length
        = 3 + 3 * (targetsOf ms).length
    ∧ (∀ t : String, t ∈ targetsOf ms ↔ t ∈ ms.map (·.target_table))
    ∧ (∀ t : String,
        (groupFor ms t).Perm (ms.filter (fun m => m.target_table == t)))
    ∧ (∀ t : String,
        (groupFor ms t).all (fun m => m.target_table == t) = true) := by
  refine ⟨generate_dml_length errors hasScdCol now ms, ?_, ?_, ?_⟩
  · intro t
    exact mem_uniqueFirst t (ms.map (·.target_table))
  · intro t
    exact List.perm_insertionSort _ _
  · intro t
    rw [List.all_eq_true]
    intro m hm
    have hmem : m ∈ ms.filter (fun m => m.target_table == t) :=
      (List.perm_insertionSort _ _).mem_iff.mp hm
    exact (List.mem_filter.mp hmem).2

/-- C6 counterexample: the generated change-detection test uses `NVL`, not the
literal `coalesce` form the claim states. -/
theorem c6_change_check_uses_nvl :
    changeCheck [c6Row]
      = "NVL(tgt.customer_name, \x27NULL\x27) <> NVL(src.customer_name, \x27NULL\x27)"
    ∧ changeCheck [c6Row]
      ≠ "coalesce(tgt.customer_name,\x27NULL\x27) <> coalesce(src.customer_name,\x27NULL\x27)" := by
  refine ⟨rfl, ?_⟩
  decide

/-- C6 (amended): the Type2 change-detection predicate is the OR-disjunction of
NVL null-safe inequality tests over at most the first
five non-business-key columns in mapping order; the number of tests is capped
at five, so later non-key columns contribute nothing. -/
theorem c6_change_check_shape (ms : List ColumnMapping) :
    changeCheck ms
      = String.intercalate " OR "
          ((((ms.filter (fun m => !m.is_business_key)).map (·.target_column)).take 5).map
            nvlTest)
    ∧ ((compareColsOf ms).take 5).length = min 5 (compareColsOf ms).length := by
  exact ⟨rfl, List.length_take 5 (compareColsOf ms)⟩

/-- C7 (confirmed): the `generate_dml` dispatch routes TYPE1 to the Type1
strategy, TYPE2 to the Type2 strategy and every other tag — including the
unrecognized "FOO" — to the Insert strategy. -/
theorem c7_dispatch (scd_type : String) (grp : List ColumnMapping)
    (full_target : String) :
    (scriptFor scd_type grp full_target =
      match strategyFor scd_type with
      | .type1 => type1Load grp full_target
      | .type2 => type2Load grp full_target
      | .insert => insertLoad grp full_target)
    ∧ (strategyFor scd_type = .type1 ↔ scd_type = "TYPE1")
    ∧ (strategyFor scd_type = .type2 ↔ scd_type = "TYPE2")
    ∧ (strategyFor scd_type = .insert ↔ scd_type ≠ "TYPE1" ∧ scd_type ≠ "TYPE2")
    ∧ strategyFor "FOO" = .insert := by
  by_cases h1 : scd_type = "TYPE1"
  · refine ⟨?_, ?_, ?_, ?_, rfl⟩ <;> simp [scriptFor, strategyFor, h1]
  · by_cases h2 : scd_type = "TYPE2"
    · refine ⟨?_, ?_, ?_, ?_, rfl⟩ <;> simp [scriptFor, strategyFor, h1, h2]
    · refine ⟨?_, ?_, ?_, ?_, rfl⟩ <;> simp [scriptFor, strategyFor, h1, h2]

/-- C8 (confirmed): a Type1/Type2 group in which no row is a business key still
flows through `generate_dml`: the join predicate is the empty string, the error
list is returned untouched, and the block of the group is emitted like any other
(script output keeps its three lines per group). -/
theorem c8_no_business_keys (ms : List ColumnMapping) (errors : List String)
    (hasScdCol : Bool) (now : String)
    (h : ms.all (fun m => !m.is_business_key) = true) :
    businessKeysOf ms = []
    ∧ businessKeyJoin ms = ""
    ∧ (generate_dml errors hasScdCol now ms).2 = errors
    ∧ ((generate_dml errors hasScdCol now ms).1).length
        = 3 + 3 * (targetsOf ms).length := by
  have hfil : ms.filter (fun m => m.is_business_key) = [] := by
    rw [List.filter_eq_nil_iff]
    intro m hm
    have hb := List.all_eq_true.mp h m hm
    simp only [Bool.not_eq_true'] at hb
    simp [hb]
  have hkeys : businessKeysOf ms = [] := by
    simp [businessKeysOf, hfil]
  refine ⟨hkeys, ?_, rfl, generate_dml_length errors hasScdCol now ms⟩
  simp [businessKeyJoin, hkeys, String.intercalate]

/-- Witness for C8 at a concrete one-row keyless group. -/
theorem c8_no_business_keys_witness :
    ([c8Row].all (fun m => !m.is_business_key) = true)
    ∧ (businessKeysOf [c8Row] = []
       ∧ businessKeyJoin [c8Row] = ""
       ∧ (generate_dml ["e0"] true "ts" [c8Row]).2 = ["e0"]
       ∧ ((generate_dml ["e0"] true "ts" [c8Row]).1).length
           = 3 + 3 * (targetsOf [c8Row]).length) :=
  ⟨rfl, c8_no_business_keys [c8Row] ["e0"] true "ts" rfl⟩

/-! ## Validator characterization -/

theorem validateGo_spec (parse : String → Except String Unit) (l : List String)
    (i : Nat) :
    (validateGo parse i l).parsed = l.filter (fun s => !skipStmt s)
    ∧ (validateGo parse i l).valid
        = (l.filter (fun s => !skipStmt s)).countP (parseOk parse)
    ∧ (validateGo parse i l).invalid
        = (l.filter (fun s => !skipStmt s)).countP (fun s => !parseOk parse s)
    ∧ (validateGo parse i l).errors = (l.enumFrom i).filterMap (diagOf parse) := by
  induction l generalizing i with
  | nil => simp [validateGo]
  | cons x xs ih =>
    obtain ⟨ih1, ih2, ih3, ih4⟩ := ih (i + 1)
    by_cases hx : skipStmt x = true
    · refine ⟨?_, ?_, ?_, ?_⟩ <;>
        simp [validateGo, hx, ih1, ih2, ih3, ih4, diagOf, List.enumFrom]
    · have hx' : skipStmt x = false := by simpa using hx
      cases hp : parse x with
      | ok u =>
        refine ⟨?_, ?_, ?_, ?_⟩ <;>
          simp [validateGo, hx', hp, parseOk, ih1, ih2, ih3, ih4, diagOf,
            List.enumFrom, List.countP_cons]
      | error e =>
        refine ⟨?_, ?_, ?_, ?_⟩ <;>
          simp [validateGo, hx', hp, parseOk, ih1, ih2, ih3, ih4, diagOf,
            List.enumFrom, List.countP_cons]

theorem validateGo_errors_length (parse : String → Except String Unit)
    (l : List String) (i : Nat) :
    ((validateGo parse i l).errors).length = (validateGo parse i l).invalid := by
  induction l generalizing i with
  | nil => simp [validateGo]
  | cons x xs ih =>
    by_cases hx : skipStmt x = true
    · simpa [validateGo, hx] using ih (i + 1)
    · have hx' : skipStmt x = false := by simpa using hx
      cases hp : parse x with
      | ok u => simpa [validateGo, hx', hp] using ih (i + 1)
      | error e => simpa [validateGo, hx', hp] using ih (i + 1)

/-! ## Claim theorems: validator -/

/-- C4 (confirmed): the statements handed to the dialect parser are exactly the
`;`-split, stripped fragments that are nonempty, do not begin with the
line-comment marker, and are at least 10 characters long. -/
theorem c4_discard_rule (parse : String → Except String Unit) (text : String) :
    (validate_sql parse text).1.parsed
      = (candidateFragments text).filter
          (fun s => !(s == "" || s.startsWith "--" || decide (s.length < 10))) := by
  have h := (validateGo_spec parse (splitStatements text) 1).1
  show (validateGo parse 1 (splitStatements text)).parsed = _
  rw [h, splitStatements, List.filter_filter]
  apply List.filter_congr
  intro s _
  cases hb1 : s == "" <;> cases hb2 : s.startsWith "--" <;>
    cases hb3 : decide (s.length < 10) <;> simp [skipStmt, hb1, hb2, hb3]

/-- C5 (confirmed): the validator succeeds exactly when the invalid count is
zero; the invalid count is the number of parsed statements whose parse fails,
the valid count the number that succeed, and each failure records one
diagnostic carrying the 1-based candidate index and the error message
truncated to its first 100 characters.  The embedding is a pure function of
the parser oracle and the text, so the input is never mutated. -/
theorem c5_validator_tally (parse : String → Except String Unit) (text : String) :
    ((validate_sql parse text).2 = true ↔ (validate_sql parse text).1.invalid = 0)
    ∧ (validate_sql parse text).1.invalid
        = (parsedStatements text).countP (fun s => !parseOk parse s)
    ∧ (validate_sql parse text).1.valid
        = (parsedStatements text).countP (parseOk parse)
    ∧ (validate_sql parse text).1.errors = specDiagnostics parse text
    ∧ ((validate_sql parse text).1.errors).length
        = (validate_sql parse text).1.invalid := by
  obtain ⟨h1, h2, h3, h4⟩ := validateGo_spec parse (splitStatements text) 1
  refine ⟨?_, h3, h2, h4, validateGo_errors_length parse (splitStatements text) 1⟩
  show ((validateGo parse 1 (splitStatements text)).invalid == 0) = true
      ↔ (validateGo parse 1 (splitStatements text)).invalid = 0
  simp

/-! ## Claim theorems: DDL synthesizer -/

/-- C3 counterexample: the zero-column skip is not the only failure mode of
DDL generation — a table that has columns but a null `sort_type` alongside
`sort_keys` aborts the whole run with an uncaught AttributeError. -/
theorem c3_not_only_failure_mode :
    generate_ddl true "2026-10-12 00:00:00" [c3Table] [c3Col] []
      = .error "AttributeError: \x27float\x27 object has no attribute \x27upper\x27" := by
  rfl

/-- C3 (amended): a table whose column list is empty gets a recorded
`No columns defined` error and contributes only its comment and DROP lines —
no CREATE — and the loop proceeds to the remaining tables; but this is not the
only failure mode of `generate_ddl` (see the counterexample). -/
theorem c3_zero_column_skip (hasSortTypeCol : Bool) (cols : List ColumnDefinition)
    (t : TableDefinition) (ts : List TableDefinition) (acc errors : List String)
    (h : tableColumns cols t = []) :
    ddlTableBlock hasSortTypeCol cols t
      = .ok (["\n-- Table: " ++ fullTableName t,
              "DROP TABLE IF EXISTS " ++ fullTableName t ++ " CASCADE;"],
             some ("No columns defined for " ++ fullTableName t))
    ∧ generate_ddlGo hasSortTypeCol cols (t :: ts) acc errors
        = generate_ddlGo hasSortTypeCol cols ts
            (acc ++ ["\n-- Table: " ++ fullTableName t,
                     "DROP TABLE IF EXISTS " ++ fullTableName t ++ " CASCADE;"])
            (errors ++ ["No columns defined for " ++ fullTableName t]) := by
  have hb : ddlTableBlock hasSortTypeCol cols t
      = .ok (["\n-- Table: " ++ fullTableName t,
              "DROP TABLE IF EXISTS " ++ fullTableName t ++ " CASCADE;"],
             some ("No columns defined for " ++ fullTableName t)) := by
    simp [ddlTableBlock, h]
  exact ⟨hb, by simp [generate_ddlGo, hb]⟩

/-- Witness for C3 at a concrete zero-column table. -/
theorem c3_zero_column_skip_witness :
    tableColumns [] c3EmptyTable = []
    ∧ (ddlTableBlock true [] c3EmptyTable
        = .ok (["\n-- Table: " ++ fullTableName c3EmptyTable,
                "DROP TABLE IF EXISTS " ++ fullTableName c3EmptyTable ++ " CASCADE;"],
               some ("No columns defined for " ++ fullTableName c3EmptyTable))
       ∧ generate_ddlGo true [] [c3EmptyTable] (ddlHeader "ts") []
          = generate_ddlGo true [] []
              (ddlHeader "ts"
                ++ ["\n-- Table: " ++ fullTableName c3EmptyTable,
                    "DROP TABLE IF EXISTS " ++ fullTableName c3EmptyTable ++ " CASCADE;"])
              ([] ++ ["No columns defined for " ++ fullTableName c3EmptyTable])) :=
  ⟨rfl, c3_zero_column_skip true [] c3EmptyTable [] (ddlHeader "ts") [] rfl⟩

/-- C9: the code contradicts its visible defaulting intent.  With the
`sort_type` column present but the cell null and `sort_keys` set, DDL
generation raises instead of defaulting to COMPOUND; the default only applies
when the whole column is absent, and a set value is upper-cased and used. -/
theorem c9_null_sort_type_crashes :
    sortTypeValue true c9Table
      = .error "AttributeError: \x27float\x27 object has no attribute \x27upper\x27"
    ∧ generate_ddl true "2026-10-12 00:00:01" [c9Table] [c9Col] []
      = .error "AttributeError: \x27float\x27 object has no attribute \x27upper\x27"
    ∧ sortTypeValue false c9Table = .ok "COMPOUND"
    ∧ (∀ st : String,
        sortTypeValue true { c9Table with sort_type := some st } = .ok st.toUpper) :=
  ⟨rfl, rfl, rfl, fun _ => rfl⟩

/-- C10 (confirmed): the DROP statement is appended before the zero-column
check, so a run over a table with no column records still outputs the
comment and DROP lines for it, records the error, and emits no CREATE. -/
theorem c10_drop_before_column_check (hasSortTypeCol : Bool) (now : String)
    (cols : List ColumnDefinition) (t : TableDefinition) (errors : List String)
    (h : tableColumns cols t = []) :
    generate_ddl hasSortTypeCol now [t] cols errors
      = .ok (ddlHeader now
              ++ ["\n-- Table: " ++ fullTableName t,
                  "DROP TABLE IF EXISTS " ++ fullTableName t ++ " CASCADE;"],
             errors ++ ["No columns defined for " ++ fullTableName t])
    ∧ ("DROP TABLE IF EXISTS " ++ fullTableName t ++ " CASCADE;")
        ∈ (ddlHeader now
            ++ ["\n-- Table: " ++ fullTableName t,
                "DROP TABLE IF EXISTS " ++ fullTableName t ++ " CASCADE;"]) := by
  have hb : ddlTableBlock hasSortTypeCol cols t
      = .ok (["\n-- Table: " ++ fullTableName t,
              "DROP TABLE IF EXISTS " ++ fullTableName t ++ " CASCADE;"],
             some ("No columns defined for " ++ fullTableName t)) := by
    simp [ddlTableBlock, h]
  constructor
  · simp [generate_ddl, generate_ddlGo, hb]
  · simp

/-- Witness for C10 at a concrete zero-column table. -/
theorem c10_drop_before_column_check_witness :
    tableColumns [] c10Table = []
    ∧ (generate_ddl true "ts" [c10Table] [] []
        = .ok (ddlHeader "ts"
                ++ ["\n-- Table: " ++ fullTableName c10Table,
                    "DROP TABLE IF EXISTS " ++ fullTableName c10Table ++ " CASCADE;"],
               [] ++ ["No columns defined for " ++ fullTableName c10Table])
       ∧ ("DROP TABLE IF EXISTS " ++ fullTableName c10Table ++ " CASCADE;")
          ∈ (ddlHeader "ts"
              ++ ["\n-- Table: " ++ fullTableName c10Table,
                  "DROP TABLE IF EXISTS " ++ fullTableName c10Table ++ " CASCADE;"])) :=
  ⟨rfl, c10_drop_before_column_check true "ts" [] c10Table [] rfl⟩
